import Mathlib

/-!
Shallow embedding of the NeuraBuddy interactive session components
(Quiz, FlashCards, Teaching/Socratic, ClinicalCase) and of the
AppContext persistence layer, together with theorems settling the
spec's claims about them.

Remote calls are modelled by passing the call's outcome
(`Except String response`) to the handler; each handler function maps
the component state before the user action to the component state after
the handler (including its `finally` block) has run.  JS numbers that
carry fractional scores are modelled as `Rat`; JS objects used as
string-keyed maps are association lists with JS spread-update
semantics.
-/

namespace NeuraBuddy

/-- Drop leading whitespace characters of a character list. -/
def dropWS : List Char → List Char
  | [] => []
  | c :: cs => if c.isWhitespace then dropWS cs else c :: cs

/-- JS `s.trim()`: strip whitespace from both ends. -/
def jsTrim (s : String) : String :=
  ⟨(dropWS ((dropWS s.data).reverse)).reverse⟩

/-- JS `Math.round` on a non-negative finite number: round half toward +∞. -/
def jsRound (x : ℚ) : ℤ := ⌊x + 1 / 2⌋

/-- JS `x.toFixed(1)` read back as a rational (round half away from zero;
for the non-negative scores in play, half up). -/
def roundTo1 (x : ℚ) : ℚ := (jsRound (10 * x) : ℚ) / 10

/-- JS object property lookup `m[k]`. -/
def objGet {α : Type} : List (String × α) → String → Option α
  | [], _ => none
  | (k', v) :: rest, k => if k' = k then some v else objGet rest k

/-- JS spread update `{...m, [k]: v}`: replaces the value at an existing
key in place, otherwise appends the new key at the end. -/
def objSet {α : Type} : List (String × α) → String → α → List (String × α)
  | [], k, v => [(k, v)]
  | (k', v') :: rest, k, v =>
      if k' = k then (k, v) :: rest else (k', v') :: objSet rest k v

namespace Quiz

/-- Feedback object returned by the quiz answer-evaluation endpoint. -/
structure Feedback where
  is_correct : Bool
  feedback : String
  explanation : Option String
  correct_answer : String
  related_anatomy : Option String
deriving Repr, DecidableEq

/-- One quiz question as returned by `/quiz/start`. -/
structure Question where
  question_id : String
  question : String
  question_type : String
  options : List String
  correct_answer : String
deriving Repr, DecidableEq

/-- The quiz object held in the `quiz` state variable. -/
structure QuizData where
  quiz_id : String
  topic : String
  difficulty_level : String
  questions : List Question
deriving Repr, DecidableEq

/-- The record stored in `answers[questionId]` by `submitAnswer`. -/
structure QuizAnswer where
  answer : String
  feedback : Feedback
deriving Repr, DecidableEq

/-- The Quiz component's state variables. -/
structure QuizState where
  quiz : Option QuizData
  currentQuestionIndex : Nat
  selectedAnswer : String
  answers : List (String × QuizAnswer)
  feedback : Option Feedback
  loading : Bool
  starting : Bool
deriving Repr, DecidableEq

/-- `quiz.questions[currentQuestionIndex].question_id` (empty when absent). -/
def currentQuestionId (s : QuizState) : String :=
  match s.quiz with
  | none => ""
  | some q => ((q.questions.get? s.currentQuestionIndex).map Question.question_id).getD ""

/-- The request body built by `startQuiz`; the handler issues it
unconditionally (there is no local validation of the question count). -/
structure QuizStartRequest where
  topic : Option String
  difficulty_level : String
  num_questions : Int
deriving Repr, DecidableEq

/-- `startQuiz`'s request construction: `topic.trim() || null`, the chosen
difficulty and `numQuestions`, always sent (`none` would mean a local
rejection, which the source never performs). -/
def startRequestOf (topic difficulty : String) (numQuestions : Int) :
    Option QuizStartRequest :=
  some ⟨if jsTrim topic = "" then none else some (jsTrim topic), difficulty, numQuestions⟩

/-- `startQuiz` state update, given the remote call's outcome. -/
def startQuiz (s : QuizState) (result : Except String QuizData) : QuizState :=
  match result with
  | .ok q =>
      { s with quiz := some q, currentQuestionIndex := 0, selectedAnswer := "",
               answers := [], feedback := none, starting := false }
  | .error _ => { s with starting := false }

/-- `submitAnswer` state update, given the evaluation call's outcome.
Mirrors the guard `if (!selectedAnswer.trim() || !quiz || loading) return`
and the success / catch / finally paths. -/
def submitAnswer (s : QuizState) (result : Except String Feedback) : QuizState :=
  if jsTrim s.selectedAnswer = "" ∨ s.quiz.isNone ∨ s.loading then s
  else
    match result with
    | .ok fb =>
        { s with
            answers := objSet s.answers (currentQuestionId s)
              ⟨jsTrim s.selectedAnswer, fb⟩,
            feedback := some fb, loading := false }
    | .error _ => { s with loading := false }

/-- The `question-dots` click handler for dot `idx`: jump to that index and
restore `answers[qid]?.answer || ''` and `answers[qid]?.feedback || null`. -/
def goToQuestion (s : QuizState) (idx : Nat) : QuizState :=
  match s.quiz with
  | none => s
  | some q =>
      let qid := ((q.questions.get? idx).map Question.question_id).getD ""
      { s with currentQuestionIndex := idx,
               selectedAnswer := ((objGet s.answers qid).map QuizAnswer.answer).getD "",
               feedback := (objGet s.answers qid).map QuizAnswer.feedback }

/-- `nextQuestion`: advance only while `currentQuestionIndex < length - 1`,
restoring the next question's stored answer and feedback. -/
def nextQuestion (s : QuizState) : QuizState :=
  match s.quiz with
  | none => s
  | some q =>
      if s.currentQuestionIndex < q.questions.length - 1 then
        let qid := ((q.questions.get? (s.currentQuestionIndex + 1)).map
          Question.question_id).getD ""
        { s with currentQuestionIndex := s.currentQuestionIndex + 1,
                 selectedAnswer := ((objGet s.answers qid).map QuizAnswer.answer).getD "",
                 feedback := (objGet s.answers qid).map QuizAnswer.feedback }
      else s

/-- `previousQuestion`: step back only while `currentQuestionIndex > 0`. -/
def previousQuestion (s : QuizState) : QuizState :=
  match s.quiz with
  | none => s
  | some q =>
      if s.currentQuestionIndex > 0 then
        let qid := ((q.questions.get? (s.currentQuestionIndex - 1)).map
          Question.question_id).getD ""
        { s with currentQuestionIndex := s.currentQuestionIndex - 1,
                 selectedAnswer := ((objGet s.answers qid).map QuizAnswer.answer).getD "",
                 feedback := (objGet s.answers qid).map QuizAnswer.feedback }
      else s

/-- `resetQuiz`. -/
def resetQuiz (s : QuizState) : QuizState :=
  { s with quiz := none, currentQuestionIndex := 0, selectedAnswer := "",
           answers := [], feedback := none }

/-- `hasAnswered`: the current question has a recorded answer. -/
def hasAnswered (s : QuizState) : Bool :=
  (objGet s.answers (currentQuestionId s)).isSome

/-- Number of questions of the active quiz. -/
def numQuestions (s : QuizState) : Nat :=
  match s.quiz with
  | none => 0
  | some q => q.questions.length

/-- `isLastQuestion`. -/
def isLastQuestion (s : QuizState) : Bool :=
  s.currentQuestionIndex == numQuestions s - 1

/-- The Submit Answer control can fire: it is rendered only when the
current question is unanswered, and is disabled while the answer text is
blank or an evaluation call is in flight. -/
def submitEnabled (s : QuizState) : Bool :=
  s.quiz.isSome && !hasAnswered s && !(jsTrim s.selectedAnswer == "") && !s.loading

/-- The Next control can fire (disabled unless the current question is
answered; replaced by Finish Quiz on the last question). -/
def nextEnabled (s : QuizState) : Bool :=
  s.quiz.isSome && !isLastQuestion s && hasAnswered s

/-- The Previous control can fire. -/
def prevEnabled (s : QuizState) : Bool :=
  s.quiz.isSome && !(s.currentQuestionIndex == 0)

/-- A question dot for index `idx` exists (one per question, never disabled). -/
def dotEnabled (s : QuizState) (idx : Nat) : Bool :=
  s.quiz.isSome && decide (idx < numQuestions s)

/-- In-session user events on the Quiz screen. -/
inductive QuizEvent where
  | submit (result : Except String Feedback)
  | next
  | prev
  | dot (idx : Nat)

/-- One UI step: the event's handler runs only if its control can fire. -/
def quizStep (s : QuizState) (e : QuizEvent) : QuizState :=
  match e with
  | .submit r => if submitEnabled s then submitAnswer s r else s
  | .next => if nextEnabled s then nextQuestion s else s
  | .prev => if prevEnabled s then previousQuestion s else s
  | .dot i => if dotEnabled s i then goToQuestion s i else s

/-- `correctCount`: answered items whose feedback has `is_correct`. -/
def correctCount (s : QuizState) : Nat :=
  (s.answers.filter (fun p => (p.2.feedback).is_correct)).length

/-- `score`: `(correctCount / questions.length) * 100` (0 on empty). -/
def score (s : QuizState) : ℚ :=
  if numQuestions s > 0 then ((correctCount s : ℚ) / (numQuestions s : ℚ)) * 100 else 0

/-- The score shown in the header and completion card: `Math.round(score)`. -/
def displayScore (s : QuizState) : ℤ := jsRound (score s)

end Quiz

namespace Flash

/-- One flash card. -/
structure Card where
  front : String
  back : String
deriving Repr, DecidableEq

/-- The evaluation object: both the response of the flash-card evaluation
endpoint (stored into `evaluation` on submit) and the object rebuilt by
`goToCard` when revisiting an answered card. -/
structure FlashEval where
  score : ℚ
  feedback : String
  is_correct : Bool
  is_partial : Bool
deriving Repr, DecidableEq

/-- The per-card record appended to `cardResults` by `submitAnswer`.
Note it keeps only the numeric score and feedback text, not the
`is_correct` / `is_partial` flags of the service's evaluation. -/
structure CardResult where
  question : String
  user_answer : String
  correct_answer : String
  score : ℚ
  feedback : String
deriving Repr, DecidableEq

/-- The FlashCards component's state variables. -/
structure FlashState where
  topic : String
  cards : List Card
  currentIndex : Nat
  userAnswer : String
  showAnswer : Bool
  evaluation : Option FlashEval
  evaluating : Bool
  cardResults : List CardResult
  totalScore : ℚ
  sessionComplete : Bool
  analysisRequested : Bool
  error : Option String
  loading : Bool
deriving Repr, DecidableEq

/-- The request body built by `generate`; issued unconditionally (no local
validation of the card count). -/
structure FlashGenRequest where
  topic : Option String
  num_cards : Int
  difficulty_level : String
deriving Repr, DecidableEq

/-- `generate`'s request construction: `topic.trim() || undefined`,
`num_cards`, difficulty — always sent. -/
def generateRequestOf (topic : String) (numCards : Int) (difficulty : String) :
    Option FlashGenRequest :=
  some ⟨if jsTrim topic = "" then none else some (jsTrim topic), numCards, difficulty⟩

/-- Response of the flash-card generation endpoint (`flash_cards` may be
absent: `res.flash_cards || []`). -/
structure FlashGenResponse where
  flash_cards : Option (List Card)
  topic : Option String
deriving Repr, DecidableEq

/-- `generate` state update, given the remote call's outcome.  On failure
the catch block records an error message and clears `cards`. -/
def generate (s : FlashState) (result : Except String FlashGenResponse) : FlashState :=
  match result with
  | .ok res =>
      { s with cards := res.flash_cards.getD [], currentIndex := 0, userAnswer := "",
               showAnswer := false, evaluation := none, cardResults := [],
               totalScore := 0, sessionComplete := false, analysisRequested := false,
               error := none, loading := false }
  | .error _ =>
      { s with error := some "Failed to generate flash cards", cards := [],
               loading := false }

/-- `submitAnswer` state update, given the evaluation call's outcome.
Mirrors the guard `if (!userAnswer.trim() || evaluating) return`; on
success it shows the evaluation, adds the score to `totalScore` and
appends a `CardResult`; on failure it records an error message.
(`cards[currentIndex].back` being read inside the `try`, an out-of-range
index also lands in the catch path.) -/
def submitAnswer (s : FlashState) (result : Except String FlashEval) : FlashState :=
  if jsTrim s.userAnswer = "" ∨ s.evaluating then s
  else
    match result, s.cards.get? s.currentIndex with
    | .ok r, some c =>
        { s with evaluation := some r, showAnswer := true,
                 totalScore := s.totalScore + r.score,
                 cardResults := s.cardResults ++
                   [⟨c.front, jsTrim s.userAnswer, c.back, r.score, r.feedback⟩],
                 evaluating := false }
    | _, _ =>
        { s with error := some "Failed to evaluate answer", evaluating := false }

/-- `goToCard`: set the index and, if that card was already answered,
restore its answer and rebuild the evaluation from the stored score
(`is_correct: score >= 1.0`, `is_partial: score > 0 && score < 1.0`);
otherwise clear the input and hide the answer. -/
def goToCard (s : FlashState) (idx : Nat) : FlashState :=
  match s.cardResults.get? idx with
  | some r =>
      { s with currentIndex := idx, userAnswer := r.user_answer, showAnswer := true,
               evaluation := some ⟨r.score, r.feedback,
                 decide (r.score ≥ 1), decide (r.score > 0 ∧ r.score < 1)⟩ }
  | none =>
      { s with currentIndex := idx, userAnswer := "", showAnswer := false,
               evaluation := none }

/-- `nextCard`: go to the next card while one remains; at the last card,
mark the session complete and fire the asynchronous performance analysis. -/
def nextCard (s : FlashState) : FlashState :=
  if s.currentIndex < s.cards.length - 1 then goToCard s (s.currentIndex + 1)
  else { s with sessionComplete := true, analysisRequested := true }

/-- `prevCard`. -/
def prevCard (s : FlashState) : FlashState :=
  if s.currentIndex > 0 then goToCard s (s.currentIndex - 1) else s

/-- The Submit Answer control can fire: the card viewer is shown
(cards present, session not complete), the answer-input section is shown
(`!showAnswer`), the text is non-blank and no evaluation is in flight. -/
def submitEnabled (s : FlashState) : Bool :=
  decide (s.cards ≠ []) && !s.sessionComplete && !s.showAnswer &&
    !(jsTrim s.userAnswer == "") && !s.evaluating

/-- The Next Card / Complete Session control can fire (rendered only in the
answer-reveal block). -/
def nextEnabled (s : FlashState) : Bool :=
  decide (s.cards ≠ []) && !s.sessionComplete && s.showAnswer && s.evaluation.isSome

/-- The Previous control can fire. -/
def prevEnabled (s : FlashState) : Bool :=
  decide (s.cards ≠ []) && !s.sessionComplete && !(s.currentIndex == 0)

/-- In-session user events on the FlashCards screen. -/
inductive FlashEvent where
  | submit (result : Except String FlashEval)
  | next
  | prev

/-- One UI step: the event's handler runs only if its control can fire. -/
def flashStep (s : FlashState) (e : FlashEvent) : FlashState :=
  match e with
  | .submit r => if submitEnabled s then submitAnswer s r else s
  | .next => if nextEnabled s then nextCard s else s
  | .prev => if prevEnabled s then prevCard s else s

/-- The record persisted for the flashcards modality
(`setFlashCardsData({ cards, topic, currentIndex })`). -/
structure StoredFlash where
  cards : List Card
  topic : String
  currentIndex : Nat
deriving Repr, DecidableEq

/-- The localStorage key for the flashcards record. -/
def storageKey : String := "neurabuddy_flash_cards"

/-- The persistence effect: while a session is active
(`cards.length > 0 && !sessionComplete`) it stores cards, topic and
currentIndex — nothing else of the session. -/
def persist (s : FlashState) : Option StoredFlash :=
  if s.cards.length > 0 ∧ s.sessionComplete = false then
    some ⟨s.cards, s.topic, s.currentIndex⟩
  else none

/-- Component state on mount given the stored record (the `useState`
initializers: `flashCardsData?.topic ?? ''` etc.; every other state
variable starts at its default). -/
def restore (d : Option StoredFlash) : FlashState :=
  { topic := (d.map StoredFlash.topic).getD "",
    cards := (d.map StoredFlash.cards).getD [],
    currentIndex := (d.map StoredFlash.currentIndex).getD 0,
    userAnswer := "", showAnswer := false, evaluation := none, evaluating := false,
    cardResults := [], totalScore := 0, sessionComplete := false,
    analysisRequested := false, error := none, loading := false }

/-- The Final Score line of the completion screen:
`totalScore.toFixed(1)` out of `cards.length`, and
`((totalScore / cards.length) * 100).toFixed(0)` percent. -/
def finalScoreLine (s : FlashState) : ℚ × ℤ :=
  (roundTo1 s.totalScore, jsRound ((s.totalScore / (s.cards.length : ℚ)) * 100))

end Flash

namespace Teach

/-- Response of the `/teach` endpoint. -/
structure TeachResponse where
  question : String
  explanation : Option String
  hint : Option String
  is_complete : Bool
  next_step : Option String
  concepts_covered : List String
deriving Repr, DecidableEq

/-- The `session` object kept by the Teaching component. -/
structure TeachSessionView where
  topic : String
  difficulty : String
  currentQuestion : String
  explanation : Option String
  hint : Option String
  isComplete : Bool
  nextStep : Option String
deriving Repr, DecidableEq

/-- One question / answer pair of the Socratic exchange. -/
structure QAPair where
  question : String
  answer : String
deriving Repr, DecidableEq

/-- The Teaching component's state variables. -/
structure TeachState where
  topic : String
  difficulty : String
  session : Option TeachSessionView
  qaPairs : List QAPair
  currentAnswer : String
  loading : Bool
  concepts : List String
deriving Repr, DecidableEq

/-- Request body of the `/teach` endpoint. -/
structure TeachRequest where
  topic : String
  difficulty_level : String
  previous_responses : List String
deriving Repr, DecidableEq

/-- `startSession`'s request: guarded by `if (!topic.trim()) return`;
carries `previous_responses: []`. -/
def startRequest (s : TeachState) : Option TeachRequest :=
  if jsTrim s.topic = "" then none else some ⟨jsTrim s.topic, s.difficulty, []⟩

/-- `startSession` state update on the remote call's outcome. -/
def startSession (s : TeachState) (result : Except String TeachResponse) : TeachState :=
  if jsTrim s.topic = "" then s
  else
    match result with
    | .ok res =>
        { s with session := some ⟨jsTrim s.topic, s.difficulty, res.question,
                   res.explanation, res.hint, res.is_complete, res.next_step⟩,
                 concepts := res.concepts_covered, qaPairs := [], loading := false }
    | .error _ => { s with loading := false }

/-- The guard of `submitAnswer`:
`if (!currentAnswer.trim() || !session || loading) return`. -/
def submitGuard (s : TeachState) : Bool :=
  !(jsTrim s.currentAnswer == "") && s.session.isSome && !s.loading

/-- `submitAnswer`'s request: the session's topic and difficulty with
`previous_responses` = every previously recorded answer, in order,
followed by the answer being submitted. -/
def submitRequest (s : TeachState) : Option TeachRequest :=
  if submitGuard s = false then none
  else
    match s.session with
    | none => none
    | some sess =>
        some ⟨sess.topic, sess.difficulty,
              s.qaPairs.map QAPair.answer ++ [jsTrim s.currentAnswer]⟩

/-- `submitAnswer` state update on the remote call's outcome.  The input is
cleared before the call; on success the asked question and the submitted
answer are appended to `qaPairs` and the session view is replaced by the
new turn. -/
def submitAnswer (s : TeachState) (result : Except String TeachResponse) : TeachState :=
  if submitGuard s = false then s
  else
    match s.session with
    | none => s
    | some sess =>
        match result with
        | .ok res =>
            let sess' : TeachSessionView :=
              { sess with currentQuestion := res.question,
                          explanation := res.explanation, hint := res.hint,
                          isComplete := res.is_complete, nextStep := res.next_step }
            { s with qaPairs := s.qaPairs ++ [⟨sess.currentQuestion, jsTrim s.currentAnswer⟩],
                     session := some sess',
                     concepts := res.concepts_covered,
                     currentAnswer := "", loading := false }
        | .error _ => { s with currentAnswer := "", loading := false }

/-- The answers recorded so far, in submission order. -/
def answersSoFar (s : TeachState) : List String :=
  s.qaPairs.map QAPair.answer

/-- A run of successful submissions: each element sets the answer text and
submits it with the service's reply. -/
def submitRun (s : TeachState) : List (String × TeachResponse) → TeachState
  | [] => s
  | (a, res) :: rest => submitRun (submitAnswer { s with currentAnswer := a } (.ok res)) rest

end Teach

namespace Clinical

/-- Response of `/study/clinical-session/start` (`available_hints` may be
absent; the component reads it as `res.available_hints || 3`). -/
structure StartResponse where
  session_id : String
  scenario_context : String
  initial_presentation : String
  patient_name : String
  available_hints : Option Nat
  stage : String
deriving Repr, DecidableEq

/-- Response of `/study/clinical-session/interact`; `completion_data` is
kept opaque. -/
structure InteractResponse where
  ai_response : String
  stage : String
  available_hints : Nat
  guidance : Option String
  is_correct_path : Option Bool
  hint_given : Option String
  session_complete : Bool
  completion_data : Option String
deriving Repr, DecidableEq

/-- The `session` object kept by the ClinicalCase component. -/
structure ClinicalSession where
  session_id : String
  patient_name : String
  stage : String
deriving Repr, DecidableEq

/-- Kinds of entries of the conversation log. -/
inductive MsgType where
  | system
  | presentation
  | student
  | response
  | hint
  | completion
deriving Repr, DecidableEq

/-- One entry of the conversation log. -/
structure Msg where
  mtype : MsgType
  content : String
deriving Repr, DecidableEq

/-- The ClinicalCase component's state variables. -/
structure ClinicalState where
  topic : String
  difficulty : String
  session : Option ClinicalSession
  messages : List Msg
  input : String
  loading : Bool
  availableHints : Nat
  error : Option String
  starting : Bool
deriving Repr, DecidableEq

/-- JS `res.available_hints || 3` (undefined and 0 are falsy). -/
def hintsOrDefault : Option Nat → Nat
  | none => 3
  | some 0 => 3
  | some n => n

/-- The component's initial state (`useState(3)` for the hints). -/
def initialState : ClinicalState :=
  { topic := "", difficulty := "med", session := none, messages := [], input := "",
    loading := false, availableHints := 3, error := none, starting := false }

/-- `resetSession`. -/
def resetSession (s : ClinicalState) : ClinicalState :=
  { s with session := none, messages := [], input := "", availableHints := 3,
           error := none }

/-- `startSession` state update on the remote call's outcome. -/
def startSession (s : ClinicalState) (result : Except String StartResponse) :
    ClinicalState :=
  match result with
  | .ok res =>
      { s with session := some ⟨res.session_id, res.patient_name, res.stage⟩,
               availableHints := hintsOrDefault res.available_hints,
               messages := [⟨.system, res.scenario_context⟩,
                            ⟨.presentation, res.initial_presentation⟩],
               error := none, starting := false }
  | .error _ =>
      { s with error := some "Failed to start clinical session", starting := false }

/-- `sendMessage(requestHint)` state update on the interaction call's
outcome.  Guard: `if ((!input.trim() && !requestHint) || loading) return`.
For a normal message the student turn is appended and the input cleared
before the call; on success the AI turn is appended, `availableHints` is
set to the server-reported value and the stage is updated; a completed
session appends a completion entry.  (`session.session_id` is read inside
the `try`, so a missing session also lands in the catch path.) -/
def sendMessage (s : ClinicalState) (requestHint : Bool)
    (result : Except String InteractResponse) : ClinicalState :=
  if (jsTrim s.input = "" ∧ requestHint = false) ∨ s.loading then s
  else
    let s1 : ClinicalState :=
      if requestHint = false then
        { s with messages := s.messages ++ [⟨.student, jsTrim s.input⟩], input := "" }
      else s
    match s.session, result with
    | some sess, .ok res =>
        let s2 : ClinicalState :=
          { s1 with
              messages := s1.messages ++
                [⟨if requestHint then .hint else .response, res.ai_response⟩],
              availableHints := res.available_hints,
              session := some { sess with stage := res.stage } }
        let s3 : ClinicalState :=
          if res.session_complete ∧ res.completion_data.isSome then
            { s2 with messages := s2.messages ++
                [⟨.completion, res.completion_data.getD ""⟩] }
          else s2
        { s3 with loading := false }
    | _, _ => { s1 with error := some "Failed to process message", loading := false }

/-- The Hint control can fire: `disabled={loading || availableHints === 0}`. -/
def hintEnabled (s : ClinicalState) : Bool :=
  s.session.isSome && !s.loading && !(s.availableHints == 0)

end Clinical

/-- The spec's item-count validity predicate for quiz/flashcards start
(count within [1,30]); written from the spec's words in order to compare
it with the code's behaviour, which performs no such check. -/
def specCountInRange (n : Int) : Bool :=
  decide (1 ≤ n) && decide (n ≤ 30)

/-- JS `parseInt(value) || d` used by the count inputs: an unparsable
input (NaN) or a parsed 0 falls back to the default. -/
def parseCountFallback (o : Option Int) (d : Int) : Int :=
  match o with
  | none => d
  | some n => if n = 0 then d else n

/-- `min` attribute of the quiz question-count input. -/
def quizCountMin : Int := 1

/-- `max` attribute of the quiz question-count input. -/
def quizCountMax : Int := 20

/-- `min` attribute of the flashcards card-count input. -/
def flashCountMin : Int := 3

/-- `max` attribute of the flashcards card-count input. -/
def flashCountMax : Int := 30

namespace Ex

/-- Fixture: a correct-answer feedback object. -/
def fbOk : Quiz.Feedback := ⟨true, "well done", none, "A", none⟩

/-- Fixture: an incorrect-answer feedback object. -/
def fbBad : Quiz.Feedback := ⟨false, "not quite", none, "A", none⟩

/-- Fixture question 1. -/
def q1 : Quiz.Question := ⟨"q1", "first question", "short", [], "A"⟩

/-- Fixture question 2. -/
def q2 : Quiz.Question := ⟨"q2", "second question", "short", [], "B"⟩

/-- Fixture: a one-question quiz. -/
def quizOne : Quiz.QuizData := ⟨"qz1", "topic", "undergrad", [q1]⟩

/-- Fixture: a two-question quiz. -/
def quizTwo : Quiz.QuizData := ⟨"qz2", "topic", "undergrad", [q1, q2]⟩

/-- Fixture: one-question quiz whose question is answered, with a new
answer typed into the input. -/
def sResubmit : Quiz.QuizState :=
  { quiz := some quizOne, currentQuestionIndex := 0, selectedAnswer := "B",
    answers := [("q1", ⟨"A", fbOk⟩)], feedback := some fbOk,
    loading := false, starting := false }

/-- Fixture: two-question quiz, nothing answered yet. -/
def sFresh : Quiz.QuizState :=
  { quiz := some quizTwo, currentQuestionIndex := 0, selectedAnswer := "",
    answers := [], feedback := none, loading := false, starting := false }

/-- Fixture: `sFresh` with an answer typed (submit control live). -/
def sTyped : Quiz.QuizState := { sFresh with selectedAnswer := "A" }

/-- Fixture: two-question quiz with one correct and one incorrect answer. -/
def sScored : Quiz.QuizState :=
  { quiz := some quizTwo, currentQuestionIndex := 1, selectedAnswer := "C",
    answers := [("q1", ⟨"A", fbOk⟩), ("q2", ⟨"C", fbBad⟩)], feedback := some fbBad,
    loading := false, starting := false }

/-- Fixture flash card A. -/
def cardA : Flash.Card := ⟨"front A", "back A"⟩

/-- Fixture flash card B. -/
def cardB : Flash.Card := ⟨"front B", "back B"⟩

/-- Fixture: a full-credit evaluation. -/
def evalOne : Flash.FlashEval := ⟨1, "good", true, false⟩

/-- Fixture: same score and feedback as `evalOne` with both flags flipped. -/
def evalOneFlipped : Flash.FlashEval := ⟨1, "good", false, true⟩

/-- Fixture: the stored result of answering card A with full credit. -/
def crA : Flash.CardResult := ⟨"front A", "my answer", "back A", 1, "good"⟩

/-- Fixture: one-card flashcards session whose card is answered. -/
def fsActive : Flash.FlashState :=
  { topic := "topic", cards := [cardA], currentIndex := 0, userAnswer := "my answer",
    showAnswer := true, evaluation := some evalOne, evaluating := false,
    cardResults := [crA], totalScore := 1, sessionComplete := false,
    analysisRequested := false, error := none, loading := false }

/-- Fixture: one-card flashcards session with an answer typed, not yet
submitted. -/
def fsTyped : Flash.FlashState :=
  { topic := "topic", cards := [cardA], currentIndex := 0, userAnswer := "my answer",
    showAnswer := false, evaluation := none, evaluating := false,
    cardResults := [], totalScore := 0, sessionComplete := false,
    analysisRequested := false, error := none, loading := false }

/-- Fixture: two-card flashcards session, first card answered and shown. -/
def fsTwo : Flash.FlashState :=
  { topic := "topic", cards := [cardA, cardB], currentIndex := 0,
    userAnswer := "my answer", showAnswer := true, evaluation := some evalOne,
    evaluating := false, cardResults := [crA], totalScore := 1,
    sessionComplete := false, analysisRequested := false, error := none,
    loading := false }

/-- Fixture: `fsActive` after session completion. -/
def fsDone : Flash.FlashState :=
  { fsActive with sessionComplete := true, analysisRequested := true }

/-- Fixture: `sScored` viewed at its first (answered) question. -/
def sMid : Quiz.QuizState := { sScored with currentQuestionIndex := 0 }

/-- Fixture: `fsTwo` navigated forward to its unanswered second card. -/
def fsTwoAt1 : Flash.FlashState :=
  { fsTwo with currentIndex := 1, userAnswer := "", showAnswer := false,
               evaluation := none }

/-- Fixture teaching responses. -/
def tr0 : Teach.TeachResponse := ⟨"opening question", none, none, false, none, []⟩

/-- Fixture teaching response for the second turn. -/
def tr1 : Teach.TeachResponse := ⟨"second question", none, none, false, none, ["c1"]⟩

/-- Fixture teaching response for the third turn. -/
def tr2 : Teach.TeachResponse := ⟨"third question", none, none, false, none, ["c2"]⟩

/-- Fixture: teaching setup screen with a topic typed. -/
def ts0 : Teach.TeachState :=
  { topic := "hippocampus", difficulty := "undergrad", session := none,
    qaPairs := [], currentAnswer := "", loading := false, concepts := [] }

/-- Fixture: clinical session with the hint budget exhausted. -/
def csZero : Clinical.ClinicalState :=
  { topic := "", difficulty := "med", session := some ⟨"sess1", "Alex", "initial"⟩,
    messages := [⟨.system, "context"⟩, ⟨.presentation, "presentation"⟩],
    input := "", loading := false, availableHints := 0, error := none,
    starting := false }

/-- Fixture: clinical session with budget 2 and a message typed. -/
def csActive : Clinical.ClinicalState :=
  { topic := "", difficulty := "med", session := some ⟨"sess1", "Alex", "initial"⟩,
    messages := [⟨.system, "context"⟩, ⟨.presentation, "presentation"⟩],
    input := "order a CT", loading := false, availableHints := 2, error := none,
    starting := false }

/-- Fixture: a hint interaction response reporting five hints left. -/
def hintRes5 : Clinical.InteractResponse :=
  ⟨"a hint", "initial", 5, none, none, some "hint text", false, none⟩

/-- Fixture: a normal interaction response reporting one hint left. -/
def okRes1 : Clinical.InteractResponse :=
  ⟨"a reply", "gathering_info", 1, none, none, none, false, none⟩

end Ex

theorem objGet_objSet_self {α : Type} (m : List (String × α)) (k : String) (v : α) :
    objGet (objSet m k v) k = some v := by
  induction m with
  | nil => simp [objGet, objSet]
  | cons p rest ih =>
      obtain ⟨k', v'⟩ := p
      by_cases h : k' = k <;> simp [objGet, objSet, h, ih]

theorem objGet_objSet_ne {α : Type} (m : List (String × α)) (k k' : String) (v : α)
    (h : k' ≠ k) : objGet (objSet m k v) k' = objGet m k' := by
  have hne : ¬k = k' := fun hk => h hk.symm
  induction m with
  | nil => simp [objGet, objSet, hne]
  | cons p rest ih =>
      obtain ⟨k₀, v₀⟩ := p
      by_cases h₀ : k₀ = k
      · subst h₀
        simp [objGet, objSet, hne]
      · simp only [objSet, if_neg h₀, objGet]
        by_cases h₁ : k₀ = k' <;> simp [h₁, ih]

theorem Quiz.goToQuestion_answers (s : Quiz.QuizState) (i : Nat) :
    (Quiz.goToQuestion s i).answers = s.answers := by
  cases hq : s.quiz <;> simp [Quiz.goToQuestion, hq]

theorem Quiz.nextQuestion_answers (s : Quiz.QuizState) :
    (Quiz.nextQuestion s).answers = s.answers := by
  cases hq : s.quiz with
  | none => simp [Quiz.nextQuestion, hq]
  | some q =>
      simp only [Quiz.nextQuestion, hq]
      split <;> rfl

theorem Quiz.previousQuestion_answers (s : Quiz.QuizState) :
    (Quiz.previousQuestion s).answers = s.answers := by
  cases hq : s.quiz with
  | none => simp [Quiz.previousQuestion, hq]
  | some q =>
      simp only [Quiz.previousQuestion, hq]
      split <;> rfl

theorem Quiz.submitEnabled_parts (s : Quiz.QuizState)
    (h : Quiz.submitEnabled s = true) :
    s.quiz.isSome = true ∧ Quiz.hasAnswered s = false ∧
      jsTrim s.selectedAnswer ≠ "" ∧ s.loading = false := by
  simp only [Quiz.submitEnabled, Bool.and_eq_true, Bool.not_eq_true',
    beq_eq_false_iff_ne, ne_eq] at h
  exact ⟨h.1.1.1, h.1.1.2, h.1.2, h.2⟩

theorem Quiz.submitGuard_passes (s : Quiz.QuizState)
    (h : Quiz.submitEnabled s = true) :
    ¬(jsTrim s.selectedAnswer = "" ∨ s.quiz.isNone = true ∨ s.loading = true) := by
  obtain ⟨hq, _, htrim, hload⟩ := Quiz.submitEnabled_parts s h
  intro hc
  rcases hc with hc | hc | hc
  · exact htrim hc
  · cases hq' : s.quiz with
    | none => simp [hq'] at hq
    | some q => simp [hq'] at hc
  · rw [hload] at hc
    exact Bool.noConfusion hc

theorem Quiz.submitAnswer_preserves (s : Quiz.QuizState) (r : Except String Quiz.Feedback)
    (hs : Quiz.submitEnabled s = true) (qid : String) (a : Quiz.QuizAnswer)
    (h : objGet s.answers qid = some a) :
    objGet (Quiz.submitAnswer s r).answers qid = some a := by
  obtain ⟨_, hna, _, _⟩ := Quiz.submitEnabled_parts s hs
  have hcur : objGet s.answers (Quiz.currentQuestionId s) = none := by
    cases hc : objGet s.answers (Quiz.currentQuestionId s) with
    | none => rfl
    | some x =>
        have ht : Quiz.hasAnswered s = true := by simp [Quiz.hasAnswered, hc]
        rw [ht] at hna
        exact Bool.noConfusion hna
  have hne : qid ≠ Quiz.currentQuestionId s := by
    intro hk
    rw [hk, hcur] at h
    exact Option.noConfusion h
  rw [Quiz.submitAnswer.eq_def, if_neg (Quiz.submitGuard_passes s hs)]
  cases r with
  | ok fb => simpa [objGet_objSet_ne _ _ _ _ hne] using h
  | error m => exact h

theorem Flash.goToCard_cardResults (s : Flash.FlashState) (i : Nat) :
    (Flash.goToCard s i).cardResults = s.cardResults := by
  rw [Flash.goToCard.eq_def]
  split <;> rfl

theorem Flash.nextCard_cardResults (s : Flash.FlashState) :
    (Flash.nextCard s).cardResults = s.cardResults := by
  rw [Flash.nextCard]
  split
  · exact Flash.goToCard_cardResults s _
  · rfl

theorem Flash.prevCard_cardResults (s : Flash.FlashState) :
    (Flash.prevCard s).cardResults = s.cardResults := by
  rw [Flash.prevCard]
  split
  · exact Flash.goToCard_cardResults s _
  · rfl

theorem Flash.submitAnswer_cardResults_preserves (s : Flash.FlashState)
    (r : Except String Flash.FlashEval) (i : Nat) (cr : Flash.CardResult)
    (h : s.cardResults.get? i = some cr) :
    (Flash.submitAnswer s r).cardResults.get? i = some cr := by
  have hlt : i < s.cardResults.length := by
    rcases List.get?_eq_some.mp h with ⟨hl, _⟩
    exact hl
  rw [Flash.submitAnswer.eq_def]
  split
  · exact h
  · split
    · simpa [List.getElem?_append_left hlt] using h
    · exact h

/-- C1, counterexample.  With question `q1` already answered ("A" with
correct feedback) and a new answer "B" typed, a direct second
`submitAnswer` call is not rejected with a ValidationError: it overwrites
`answers["q1"]` with the new answer and feedback, so `answers[i]` does
not stay unchanged. -/
theorem claim_C1_counterexample :
    objGet Ex.sResubmit.answers "q1" = some ⟨"A", Ex.fbOk⟩ ∧
    objGet (Quiz.submitAnswer Ex.sResubmit (.ok Ex.fbBad)).answers "q1" =
      some ⟨"B", Ex.fbBad⟩ ∧
    (⟨"B", Ex.fbBad⟩ : Quiz.QuizAnswer) ≠ ⟨"A", Ex.fbOk⟩ :=
  ⟨by decide, by decide, by decide⟩

/-- C1, amended.  Answer-once holds at the UI level and silently: every
recorded answer survives every in-session UI event unchanged (for quiz,
any submit/next/previous/dot event; for flashcards, any
submit/next/previous event), because the submit control can only fire
while the current item is unanswered (quiz) resp. while no answer is
shown (flashcards).  No ValidationError is surfaced; a direct second
handler call for an answered item would overwrite it
(see the counterexample). -/
theorem claim_C1 :
    (∀ (s : Quiz.QuizState) (e : Quiz.QuizEvent) (qid : String) (a : Quiz.QuizAnswer),
        objGet s.answers qid = some a →
        objGet (Quiz.quizStep s e).answers qid = some a) ∧
    (∀ s : Quiz.QuizState, Quiz.submitEnabled s = true → Quiz.hasAnswered s = false) ∧
    (∀ (s : Flash.FlashState) (e : Flash.FlashEvent) (i : Nat) (cr : Flash.CardResult),
        s.cardResults.get? i = some cr →
        (Flash.flashStep s e).cardResults.get? i = some cr) ∧
    (∀ s : Flash.FlashState, Flash.submitEnabled s = true → s.showAnswer = false) := by
  refine ⟨?_, ?_, ?_, ?_⟩
  · intro s e qid a h
    cases e with
    | submit r =>
        simp only [Quiz.quizStep]
        split
        · exact Quiz.submitAnswer_preserves s r (by assumption) qid a h
        · exact h
    | next =>
        simp only [Quiz.quizStep]
        split
        · rw [Quiz.nextQuestion_answers]; exact h
        · exact h
    | prev =>
        simp only [Quiz.quizStep]
        split
        · rw [Quiz.previousQuestion_answers]; exact h
        · exact h
    | dot i =>
        simp only [Quiz.quizStep]
        split
        · rw [Quiz.goToQuestion_answers]; exact h
        · exact h
  · intro s h
    exact (Quiz.submitEnabled_parts s h).2.1
  · intro s e i cr h
    cases e with
    | submit r =>
        simp only [Flash.flashStep]
        split
        · exact Flash.submitAnswer_cardResults_preserves s r i cr h
        · exact h
    | next =>
        simp only [Flash.flashStep]
        split
        · rw [Flash.nextCard_cardResults]; exact h
        · exact h
    | prev =>
        simp only [Flash.flashStep]
        split
        · rw [Flash.prevCard_cardResults]; exact h
        · exact h
  · intro s h
    simp only [Flash.submitEnabled, Bool.and_eq_true, Bool.not_eq_true'] at h
    exact h.1.1.2

/-- C1, witness: the amended theorem applied at concrete states. -/
theorem claim_C1_witness :
    objGet (Quiz.quizStep Ex.sResubmit Quiz.QuizEvent.next).answers "q1" =
      some ⟨"A", Ex.fbOk⟩ ∧
    Quiz.hasAnswered Ex.sTyped = false ∧
    (Flash.flashStep Ex.fsTwo Flash.FlashEvent.prev).cardResults.get? 0 =
      some Ex.crA ∧
    Ex.fsTyped.showAnswer = false :=
  ⟨claim_C1.1 Ex.sResubmit Quiz.QuizEvent.next "q1" ⟨"A", Ex.fbOk⟩ (by decide),
   claim_C1.2.1 Ex.sTyped (by decide),
   claim_C1.2.2.1 Ex.fsTwo Flash.FlashEvent.prev 0 Ex.crA (by decide),
   claim_C1.2.2.2 Ex.fsTyped (by decide)⟩

theorem Flash.goToCard_currentIndex (s : Flash.FlashState) (i : Nat) :
    (Flash.goToCard s i).currentIndex = i := by
  rw [Flash.goToCard.eq_def]
  split <;> rfl

theorem Flash.goToCard_sessionComplete (s : Flash.FlashState) (i : Nat) :
    (Flash.goToCard s i).sessionComplete = s.sessionComplete := by
  rw [Flash.goToCard.eq_def]
  split <;> rfl

/-- C2, counterexample.  A one-card flashcards session with the card
answered: the completing advance leaves the cursor at 0 instead of moving
it to `items.length = 1`, while `sessionComplete` becomes true — the
cursor never equals `items.length`. -/
theorem claim_C2_counterexample :
    Ex.fsActive.cardResults.get? Ex.fsActive.currentIndex = some Ex.crA ∧
    Ex.fsActive.currentIndex + 1 = Ex.fsActive.cards.length ∧
    (Flash.nextCard Ex.fsActive).currentIndex ≠ Ex.fsActive.currentIndex + 1 ∧
    (Flash.nextCard Ex.fsActive).sessionComplete = true :=
  ⟨by decide, by decide, by decide, by decide⟩

/-- C2, amended.  Advance increments the cursor by exactly 1 while
`cursor < items.length - 1`; the advance from the last item leaves the
cursor unchanged (it never reaches `items.length`) and, for flashcards,
sets `sessionComplete` and fires the analysis call.  The advance control
only fires with the current item answered (quiz: `hasAnswered`;
flashcards: answer shown with an evaluation present), and once the
flashcards session is complete an advance event is a no-op.  Quiz has no
stored status: its advance from the last index is a plain no-op and
completion is derived from all items being answered. -/
theorem claim_C2 :
    (∀ s : Flash.FlashState, s.currentIndex < s.cards.length - 1 →
        (Flash.nextCard s).currentIndex = s.currentIndex + 1 ∧
        (Flash.nextCard s).sessionComplete = s.sessionComplete) ∧
    (∀ s : Flash.FlashState, ¬s.currentIndex < s.cards.length - 1 →
        (Flash.nextCard s).currentIndex = s.currentIndex ∧
        (Flash.nextCard s).sessionComplete = true ∧
        (Flash.nextCard s).analysisRequested = true) ∧
    (∀ s : Flash.FlashState, Flash.nextEnabled s = true →
        s.showAnswer = true ∧ s.evaluation.isSome = true) ∧
    (∀ s : Flash.FlashState, s.sessionComplete = true →
        Flash.flashStep s Flash.FlashEvent.next = s) ∧
    (∀ (s : Quiz.QuizState) (q : Quiz.QuizData), s.quiz = some q →
        s.currentQuestionIndex < q.questions.length - 1 →
        (Quiz.nextQuestion s).currentQuestionIndex = s.currentQuestionIndex + 1) ∧
    (∀ (s : Quiz.QuizState) (q : Quiz.QuizData), s.quiz = some q →
        ¬s.currentQuestionIndex < q.questions.length - 1 →
        Quiz.nextQuestion s = s) ∧
    (∀ s : Quiz.QuizState, Quiz.nextEnabled s = true → Quiz.hasAnswered s = true) := by
  refine ⟨?_, ?_, ?_, ?_, ?_, ?_, ?_⟩
  · intro s h
    rw [Flash.nextCard, if_pos h]
    exact ⟨Flash.goToCard_currentIndex s _, Flash.goToCard_sessionComplete s _⟩
  · intro s h
    rw [Flash.nextCard, if_neg h]
    exact ⟨rfl, rfl, rfl⟩
  · intro s h
    simp only [Flash.nextEnabled, Bool.and_eq_true, Bool.not_eq_true'] at h
    exact ⟨h.1.2, h.2⟩
  · intro s h
    simp [Flash.flashStep, Flash.nextEnabled, h]
  · intro s q hq h
    rw [Quiz.nextQuestion.eq_def, hq]
    simp only
    rw [if_pos h]
  · intro s q hq h
    rw [Quiz.nextQuestion.eq_def, hq]
    simp only
    rw [if_neg h]
  · intro s h
    simp only [Quiz.nextEnabled, Bool.and_eq_true] at h
    exact h.2

/-- C2, witness: the amended theorem applied at concrete states. -/
theorem claim_C2_witness :
    (Flash.nextCard Ex.fsTwo).currentIndex = 1 ∧
    (Flash.nextCard Ex.fsActive).sessionComplete = true ∧
    Ex.fsTwo.showAnswer = true ∧
    Flash.flashStep Ex.fsDone Flash.FlashEvent.next = Ex.fsDone ∧
    (Quiz.nextQuestion Ex.sFresh).currentQuestionIndex = 1 ∧
    Quiz.nextQuestion Ex.sScored = Ex.sScored ∧
    Quiz.hasAnswered Ex.sMid = true :=
  ⟨(claim_C2.1 Ex.fsTwo (by decide)).1,
   (claim_C2.2.1 Ex.fsActive (by decide)).2.1,
   (claim_C2.2.2.1 Ex.fsTwo (by decide)).1,
   claim_C2.2.2.2.1 Ex.fsDone (by decide),
   claim_C2.2.2.2.2.1 Ex.sFresh Ex.quizTwo (by decide) (by decide),
   claim_C2.2.2.2.2.2.1 Ex.sScored Ex.quizTwo (by decide) (by decide),
   claim_C2.2.2.2.2.2.2 Ex.sMid (by decide)⟩

/-- C3, counterexample.  With two questions and nothing answered, the
question dot for index 1 is live and clicking it moves the cursor to the
unanswered future question 1 — quiz navigation has no forward gating. -/
theorem claim_C3_counterexample :
    Quiz.hasAnswered Ex.sFresh = false ∧
    Ex.sFresh.answers = [] ∧
    Quiz.dotEnabled Ex.sFresh 1 = true ∧
    (Quiz.quizStep Ex.sFresh (Quiz.QuizEvent.dot 1)).currentQuestionIndex = 1 :=
  ⟨by decide, by decide, by decide, by decide⟩

/-- C3, amended.  Flashcards navigation is gated: Previous only fires away
from index 0 and moves back exactly one card, and Next only fires with
the current card's answer shown.  Navigating to an answered card restores
its recorded answer and a rebuilt evaluation without re-submitting
(`cardResults` and `totalScore` untouched).  The quiz question-dots,
however, jump to any index — including unanswered future ones — with the
answers map untouched. -/
theorem claim_C3 :
    (∀ s : Flash.FlashState, Flash.prevEnabled s = true →
        s.currentIndex ≠ 0 ∧
        (Flash.flashStep s Flash.FlashEvent.prev).currentIndex = s.currentIndex - 1) ∧
    (∀ s : Flash.FlashState, Flash.nextEnabled s = true → s.showAnswer = true) ∧
    (∀ (s : Flash.FlashState) (i : Nat) (r : Flash.CardResult),
        s.cardResults.get? i = some r →
        (Flash.goToCard s i).userAnswer = r.user_answer ∧
        (Flash.goToCard s i).evaluation =
          some ⟨r.score, r.feedback, decide (r.score ≥ 1),
                decide (r.score > 0 ∧ r.score < 1)⟩ ∧
        (Flash.goToCard s i).cardResults = s.cardResults ∧
        (Flash.goToCard s i).totalScore = s.totalScore) ∧
    (∀ (s : Quiz.QuizState) (q : Quiz.QuizData) (i : Nat), s.quiz = some q →
        (Quiz.goToQuestion s i).currentQuestionIndex = i ∧
        (Quiz.goToQuestion s i).answers = s.answers) := by
  refine ⟨?_, ?_, ?_, ?_⟩
  · intro s h
    have hmain := h
    simp only [Flash.prevEnabled, Bool.and_eq_true, Bool.not_eq_true',
      beq_eq_false_iff_ne, ne_eq] at h
    have hne : s.currentIndex ≠ 0 := h.2
    refine ⟨hne, ?_⟩
    simp only [Flash.flashStep]
    rw [if_pos hmain, Flash.prevCard, if_pos (Nat.pos_of_ne_zero hne)]
    exact Flash.goToCard_currentIndex s _
  · intro s h
    simp only [Flash.nextEnabled, Bool.and_eq_true, Bool.not_eq_true'] at h
    exact h.1.2
  · intro s i r h
    rw [Flash.goToCard.eq_def, h]
    exact ⟨rfl, rfl, rfl, rfl⟩
  · intro s q i hq
    rw [Quiz.goToQuestion.eq_def, hq]
    exact ⟨rfl, rfl⟩

/-- C3, witness: the amended theorem applied at concrete states. -/
theorem claim_C3_witness :
    Ex.fsTwoAt1.currentIndex ≠ 0 ∧
    Ex.fsTwo.showAnswer = true ∧
    (Flash.goToCard Ex.fsActive 0).userAnswer = "my answer" ∧
    (Flash.goToCard Ex.fsActive 0).cardResults = Ex.fsActive.cardResults ∧
    (Quiz.goToQuestion Ex.sFresh 1).currentQuestionIndex = 1 :=
  ⟨(claim_C3.1 Ex.fsTwoAt1 (by decide)).1,
   claim_C3.2.1 Ex.fsTwo (by decide),
   (claim_C3.2.2.1 Ex.fsActive 0 Ex.crA (by decide)).1,
   (claim_C3.2.2.1 Ex.fsActive 0 Ex.crA (by decide)).2.2.1,
   (claim_C3.2.2.2 Ex.sFresh Ex.quizTwo 1 (by decide)).1⟩

/-- C4, counterexample.  At budget 0 the raw hint handler, invoked
directly, still proceeds: it appends a hint turn and adopts the
server-reported budget — here 5, strictly above the previous 0, so the
budget is neither blocked at 0 nor monotonically non-increasing on the
client. -/
theorem claim_C4_counterexample :
    Ex.csZero.availableHints = 0 ∧
    (Clinical.sendMessage Ex.csZero true (.ok Ex.hintRes5)).messages.length =
      Ex.csZero.messages.length + 1 ∧
    (Clinical.sendMessage Ex.csZero true (.ok Ex.hintRes5)).availableHints = 5 :=
  ⟨by decide, by decide, by decide⟩

/-- C4, amended.  The budget starts at 3 (initial state, reset, and start
falling back to 3 when the server omits or zeroes it), and the hint
control is disabled at budget 0, so a UI-level `requestHint` cannot fire
then.  The budget is not decremented locally: every successful
interaction sets it to the server-reported `available_hints` (so
client-side monotonicity holds only if the server decrements), and a
failed interaction leaves it unchanged. -/
theorem claim_C4 :
    Clinical.initialState.availableHints = 3 ∧
    (∀ s : Clinical.ClinicalState, (Clinical.resetSession s).availableHints = 3) ∧
    (∀ (s : Clinical.ClinicalState) (res : Clinical.StartResponse),
        (Clinical.startSession s (.ok res)).availableHints =
          Clinical.hintsOrDefault res.available_hints) ∧
    (∀ s : Clinical.ClinicalState, s.availableHints = 0 →
        Clinical.hintEnabled s = false) ∧
    (∀ (s : Clinical.ClinicalState) (sess : Clinical.ClinicalSession) (h : Bool)
        (res : Clinical.InteractResponse),
        s.session = some sess →
        ¬((jsTrim s.input = "" ∧ h = false) ∨ s.loading = true) →
        (Clinical.sendMessage s h (.ok res)).availableHints = res.available_hints) ∧
    (∀ (s : Clinical.ClinicalState) (h : Bool) (m : String),
        (Clinical.sendMessage s h (.error m)).availableHints = s.availableHints) := by
  refine ⟨rfl, fun _ => rfl, fun _ _ => rfl, ?_, ?_, ?_⟩
  · intro s h
    simp [Clinical.hintEnabled, h]
  · intro s sess h res hsess hg
    rw [Clinical.sendMessage.eq_def, if_neg hg, hsess]
    simp only
    split <;> rfl
  · intro s h m
    rw [Clinical.sendMessage.eq_def]
    split
    · rfl
    · cases hsess : s.session with
      | none =>
          simp only [hsess]
          split <;> rfl
      | some sess =>
          simp only [hsess]
          split <;> rfl

/-- C4, witness: the amended theorem applied at concrete states. -/
theorem claim_C4_witness :
    Clinical.hintEnabled Ex.csZero = false ∧
    (Clinical.sendMessage Ex.csActive false (.ok Ex.okRes1)).availableHints = 1 :=
  ⟨claim_C4.2.2.2.1 Ex.csZero (by decide),
   claim_C4.2.2.2.2.1 Ex.csActive ⟨"sess1", "Alex", "initial"⟩ false Ex.okRes1
     (by decide) (by decide)⟩

/-- C5, counterexample.  An active one-card flashcards session with a
recorded answer persists only `{cards, topic, currentIndex}`; restoring
it loses the recorded results (and score, evaluation, input), so the
round trip is not deep-equal to the original session. -/
theorem claim_C5_counterexample :
    Flash.persist Ex.fsActive = some ⟨[Ex.cardA], "topic", 0⟩ ∧
    (Flash.restore (Flash.persist Ex.fsActive)).cardResults = [] ∧
    Ex.fsActive.cardResults = [Ex.crA] ∧
    Flash.restore (Flash.persist Ex.fsActive) ≠ Ex.fsActive :=
  ⟨by decide, by decide, by decide, by decide⟩

/-- C5, amended.  Only the flashcards modality persists session state,
under the stable key `neurabuddy_flash_cards`: while a session is active
the stored record holds exactly `cards`, `topic` and `currentIndex`, and
restoring recovers those three fields while every per-answer field
(results, score, current input, evaluation) resets to its default; an
absent key restores the fresh empty state.  Quiz, teaching and clinical
components keep their sessions in memory only. -/
theorem claim_C5 :
    (∀ s : Flash.FlashState, s.cards ≠ [] → s.sessionComplete = false →
        Flash.persist s = some ⟨s.cards, s.topic, s.currentIndex⟩ ∧
        (Flash.restore (Flash.persist s)).cards = s.cards ∧
        (Flash.restore (Flash.persist s)).topic = s.topic ∧
        (Flash.restore (Flash.persist s)).currentIndex = s.currentIndex ∧
        (Flash.restore (Flash.persist s)).cardResults = [] ∧
        (Flash.restore (Flash.persist s)).totalScore = 0 ∧
        (Flash.restore (Flash.persist s)).userAnswer = "" ∧
        (Flash.restore (Flash.persist s)).sessionComplete = false) ∧
    ((Flash.restore none).cards = [] ∧ (Flash.restore none).topic = "" ∧
        (Flash.restore none).currentIndex = 0 ∧
        (Flash.restore none).sessionComplete = false) ∧
    Flash.storageKey = "neurabuddy_flash_cards" := by
  refine ⟨?_, ⟨rfl, rfl, rfl, rfl⟩, rfl⟩
  intro s h1 h2
  have hp : Flash.persist s = some ⟨s.cards, s.topic, s.currentIndex⟩ := by
    rw [Flash.persist, if_pos ⟨List.length_pos.mpr h1, h2⟩]
  rw [hp]
  exact ⟨rfl, rfl, rfl, rfl, rfl, rfl, rfl, rfl⟩

/-- C5, witness: the amended theorem applied at a concrete state. -/
theorem claim_C5_witness :
    (Flash.restore (Flash.persist Ex.fsActive)).cards = [Ex.cardA] ∧
    (Flash.restore (Flash.persist Ex.fsActive)).totalScore = 0 :=
  ⟨(claim_C5.1 Ex.fsActive (by decide) (by decide)).2.1,
   (claim_C5.1 Ex.fsActive (by decide) (by decide)).2.2.2.2.2.1⟩

/-- C6.  When the evaluation call of a submit fails, no mutation occurs:
the quiz state is unchanged except the busy flag returning to false (the
error text is surfaced through a transient alert, not state), and the
flashcards state is unchanged except the busy flag and the surfaced error
message — in particular `answers`, `cardResults` and the score
accumulator are untouched and nothing retries. -/
theorem claim_C6 :
    (∀ (s : Quiz.QuizState) (m : String),
        ¬(jsTrim s.selectedAnswer = "" ∨ s.quiz.isNone = true ∨ s.loading = true) →
        Quiz.submitAnswer s (.error m) = { s with loading := false }) ∧
    (∀ (s : Flash.FlashState) (m : String),
        ¬(jsTrim s.userAnswer = "" ∨ s.evaluating = true) →
        Flash.submitAnswer s (.error m) =
          { s with error := some "Failed to evaluate answer",
                   evaluating := false }) := by
  constructor
  · intro s m h
    rw [Quiz.submitAnswer, if_neg h]
  · intro s m h
    rw [Flash.submitAnswer.eq_def, if_neg h]

/-- C6, witness: the theorem applied at concrete submit-ready states. -/
theorem claim_C6_witness :
    Quiz.submitAnswer Ex.sTyped (.error "timeout") =
      { Ex.sTyped with loading := false } ∧
    Flash.submitAnswer Ex.fsTyped (.error "timeout") =
      { Ex.fsTyped with error := some "Failed to evaluate answer",
                        evaluating := false } :=
  ⟨claim_C6.1 Ex.sTyped "timeout" (by decide),
   claim_C6.2 Ex.fsTyped "timeout" (by decide)⟩

theorem filter_length_eq_sum_ite {α : Type} (p : α → Bool) (l : List α) :
    (l.filter p).length = (l.map (fun x => if p x then (1 : Nat) else 0)).sum := by
  induction l with
  | nil => rfl
  | cons x xs ih => by_cases hx : p x <;> simp [hx, ih, Nat.add_comm]

/-- C7.  The quiz header/completion score is
`round(100 * correctCount / questions.length)` where each answered item
contributes 1 exactly when its feedback has `is_correct`; a flashcards
submit adds the evaluation's `[0,1]` score to the accumulator, and the
final score line reports the accumulator to one decimal together with
`round(100 * totalScore / cards.length)`. -/
theorem claim_C7 :
    (∀ s : Quiz.QuizState, Quiz.numQuestions s ≠ 0 →
        Quiz.displayScore s =
          jsRound (100 * (Quiz.correctCount s : ℚ) / (Quiz.numQuestions s : ℚ))) ∧
    (∀ s : Quiz.QuizState,
        Quiz.correctCount s =
          (s.answers.map
            (fun p => if (p.2.feedback).is_correct then (1 : Nat) else 0)).sum) ∧
    (∀ (s : Flash.FlashState) (r : Flash.FlashEval) (c : Flash.Card),
        ¬(jsTrim s.userAnswer = "" ∨ s.evaluating = true) →
        s.cards.get? s.currentIndex = some c →
        (Flash.submitAnswer s (.ok r)).totalScore = s.totalScore + r.score) ∧
    (∀ s : Flash.FlashState,
        Flash.finalScoreLine s =
          (roundTo1 s.totalScore,
           jsRound (100 * s.totalScore / (s.cards.length : ℚ)))) := by
  refine ⟨?_, ?_, ?_, ?_⟩
  · intro s h
    rw [Quiz.displayScore, Quiz.score, if_pos (Nat.pos_of_ne_zero h)]
    congr 1
    ring
  · intro s
    rw [Quiz.correctCount]
    exact filter_length_eq_sum_ite _ s.answers
  · intro s r c hg hc
    rw [Flash.submitAnswer.eq_def, if_neg hg, hc]
  · intro s
    rw [Flash.finalScoreLine]
    refine congrArg _ ?_
    congr 1
    ring

/-- C7, witness: the theorem applied at concrete states. -/
theorem claim_C7_witness :
    Quiz.displayScore Ex.sScored =
      jsRound (100 * (Quiz.correctCount Ex.sScored : ℚ) /
        (Quiz.numQuestions Ex.sScored : ℚ)) ∧
    (Flash.submitAnswer Ex.fsTyped (.ok Ex.evalOne)).totalScore =
      Ex.fsTyped.totalScore + Ex.evalOne.score :=
  ⟨claim_C7.1 Ex.sScored (by decide),
   claim_C7.2.2.1 Ex.fsTyped Ex.evalOne Ex.cardA (by decide) (by decide)⟩

/-- C8, counterexample.  A count of 31 is outside the spec's [1,30], yet
both start handlers still build and send the remote request with it —
there is no local range check, no ValidationError, and the out-of-range
value does reach the remote service. -/
theorem claim_C8_counterexample :
    specCountInRange 31 = false ∧
    Quiz.startRequestOf "" "undergrad" 31 = some ⟨none, "undergrad", 31⟩ ∧
    Flash.generateRequestOf "" 31 "undergrad" = some ⟨none, 31, "undergrad"⟩ :=
  ⟨by decide, by decide, by decide⟩

/-- C8, amended.  The start handlers perform no count validation: for
every count value they issue the remote request carrying it verbatim.
The only bounds are input-field attributes (quiz 1..20, flashcards
3..30 — not the spec's [1,30]) which do not constrain the handler, plus
the `parseInt(v) || default` fallback for unparsable or zero input.  On a
failed start the quiz state is unchanged apart from the busy flag, while
a failed flashcards generation also clears `cards`. -/
theorem claim_C8 :
    (∀ (t d : String) (n : Int),
        Quiz.startRequestOf t d n =
          some ⟨if jsTrim t = "" then none else some (jsTrim t), d, n⟩) ∧
    (∀ (t d : String) (n : Int),
        Flash.generateRequestOf t n d =
          some ⟨if jsTrim t = "" then none else some (jsTrim t), n, d⟩) ∧
    (∀ (s : Quiz.QuizState) (m : String),
        Quiz.startQuiz s (.error m) = { s with starting := false }) ∧
    (∀ (s : Flash.FlashState) (m : String),
        Flash.generate s (.error m) =
          { s with error := some "Failed to generate flash cards", cards := [],
                   loading := false }) ∧
    (∀ n : Int, n ≠ 0 → parseCountFallback (some n) 5 = n) ∧
    parseCountFallback none 5 = 5 ∧
    parseCountFallback (some 0) 10 = 10 ∧
    quizCountMin = 1 ∧ quizCountMax = 20 ∧
    flashCountMin = 3 ∧ flashCountMax = 30 := by
  refine ⟨fun t d n => rfl, fun t d n => rfl, fun s m => rfl, fun s m => rfl,
    ?_, rfl, rfl, rfl, rfl, rfl, rfl⟩
  intro n hn
  simp [parseCountFallback, hn]

/-- C8, witness: the amended theorem applied at a concrete count. -/
theorem claim_C8_witness : parseCountFallback (some 31) 5 = 31 :=
  claim_C8.2.2.2.2.1 31 (by decide)

theorem Teach.submitAnswer_ok_shape (s : Teach.TeachState)
    (sess : Teach.TeachSessionView) (res : Teach.TeachResponse)
    (hsess : s.session = some sess) (hg : Teach.submitGuard s = true) :
    Teach.submitAnswer s (.ok res) =
      { s with
          qaPairs := s.qaPairs ++ [⟨sess.currentQuestion, jsTrim s.currentAnswer⟩],
          session := some ⟨sess.topic, sess.difficulty, res.question,
            res.explanation, res.hint, res.is_complete, res.next_step⟩,
          concepts := res.concepts_covered,
          currentAnswer := "", loading := false } := by
  rw [Teach.submitAnswer.eq_def, hg, hsess]
  rfl

theorem Teach.submitRun_invariant (l : List (String × Teach.TeachResponse)) :
    ∀ (s : Teach.TeachState) (sess : Teach.TeachSessionView),
      s.session = some sess → s.loading = false →
      (∀ p ∈ l, jsTrim p.1 ≠ "") →
      ∃ sess' : Teach.TeachSessionView,
        (Teach.submitRun s l).session = some sess' ∧
        sess'.topic = sess.topic ∧ sess'.difficulty = sess.difficulty ∧
        (Teach.submitRun s l).loading = false ∧
        Teach.answersSoFar (Teach.submitRun s l) =
          Teach.answersSoFar s ++ l.map (fun p => jsTrim p.1) := by
  induction l with
  | nil =>
      intro s sess hsess hload _
      exact ⟨sess, hsess, rfl, rfl, hload, by simp [Teach.submitRun]⟩
  | cons p rest ih =>
      obtain ⟨a, res⟩ := p
      intro s sess hsess hload hall
      have ha : jsTrim a ≠ "" := hall (a, res) (List.mem_cons_self _ _)
      have hg : Teach.submitGuard { s with currentAnswer := a } = true := by
        simp [Teach.submitGuard, hsess, hload, ha]
      have hshape := Teach.submitAnswer_ok_shape { s with currentAnswer := a }
        sess res (by simpa using hsess) hg
      have hstep : Teach.submitRun s ((a, res) :: rest) =
          Teach.submitRun
            (Teach.submitAnswer { s with currentAnswer := a } (.ok res)) rest := rfl
      rw [hstep, hshape]
      obtain ⟨sess', h1, h2, h3, h4, h5⟩ := ih
        { s with
            qaPairs := s.qaPairs ++
              [⟨sess.currentQuestion, jsTrim ({ s with currentAnswer := a} : Teach.TeachState).currentAnswer⟩],
            session := some ⟨sess.topic, sess.difficulty, res.question,
              res.explanation, res.hint, res.is_complete, res.next_step⟩,
            concepts := res.concepts_covered,
            currentAnswer := "", loading := false }
        ⟨sess.topic, sess.difficulty, res.question, res.explanation, res.hint,
         res.is_complete, res.next_step⟩
        rfl rfl (fun q hq => hall q (List.mem_cons_of_mem _ hq))
      refine ⟨sess', h1, h2, h3, h4, ?_⟩
      rw [h5]
      simp [Teach.answersSoFar]

/-- C9.  The very first teaching request carries an empty
`previous_responses`; every later request carries, in order, exactly the
answers recorded so far followed by the answer being submitted, and each
successful submit appends that answer to the record — so after starting
and submitting the answers of `l`, the next request carries all of them
in submission order plus the new one. -/
theorem claim_C9 :
    (∀ s : Teach.TeachState, ∀ req, Teach.startRequest s = some req →
        req.previous_responses = []) ∧
    (∀ s : Teach.TeachState, ∀ req, Teach.submitRequest s = some req →
        req.previous_responses = Teach.answersSoFar s ++ [jsTrim s.currentAnswer]) ∧
    (∀ (s : Teach.TeachState) (sess : Teach.TeachSessionView)
        (res : Teach.TeachResponse),
        s.session = some sess → Teach.submitGuard s = true →
        Teach.answersSoFar (Teach.submitAnswer s (.ok res)) =
          Teach.answersSoFar s ++ [jsTrim s.currentAnswer]) ∧
    (∀ (s0 : Teach.TeachState) (res0 : Teach.TeachResponse)
        (l : List (String × Teach.TeachResponse)) (a : String),
        jsTrim s0.topic ≠ "" → (∀ p ∈ l, jsTrim p.1 ≠ "") → jsTrim a ≠ "" →
        Teach.submitRequest
            { Teach.submitRun (Teach.startSession s0 (.ok res0)) l with
                currentAnswer := a } =
          some ⟨jsTrim s0.topic, s0.difficulty,
                l.map (fun p => jsTrim p.1) ++ [jsTrim a]⟩) := by
  refine ⟨?_, ?_, ?_, ?_⟩
  · intro s req h
    rw [Teach.startRequest] at h
    split at h
    · exact absurd h (by simp)
    · cases h
      rfl
  · intro s req h
    by_cases hg : Teach.submitGuard s = false
    · rw [Teach.submitRequest, if_pos hg] at h
      exact absurd h (by simp)
    · rw [Teach.submitRequest.eq_def, if_neg hg] at h
      cases hsess : s.session with
      | none =>
          rw [hsess] at h
          exact absurd h (by simp)
      | some sess =>
          rw [hsess] at h
          cases h
          rfl
  · intro s sess res hsess hg
    rw [Teach.submitAnswer_ok_shape s sess res hsess hg]
    simp [Teach.answersSoFar]
  · intro s0 res0 l a htopic hall ha
    have hstart : (Teach.startSession s0 (.ok res0)).session =
        some ⟨jsTrim s0.topic, s0.difficulty, res0.question, res0.explanation,
              res0.hint, res0.is_complete, res0.next_step⟩ := by
      rw [Teach.startSession, if_neg htopic]
    have hload : (Teach.startSession s0 (.ok res0)).loading = false := by
      rw [Teach.startSession, if_neg htopic]
    have hqa : Teach.answersSoFar (Teach.startSession s0 (.ok res0)) = [] := by
      rw [Teach.startSession, if_neg htopic]
      rfl
    obtain ⟨sess', h1, h2, h3, h4, h5⟩ :=
      Teach.submitRun_invariant l (Teach.startSession s0 (.ok res0)) _ hstart hload hall
    have hgtrue : Teach.submitGuard
        { Teach.submitRun (Teach.startSession s0 (.ok res0)) l with
            currentAnswer := a } = true := by
      simp [Teach.submitGuard, h1, h4, ha]
    have hgneg : ¬(Teach.submitGuard
        { Teach.submitRun (Teach.startSession s0 (.ok res0)) l with
            currentAnswer := a } = false) := by
      rw [hgtrue]
      decide
    have hsess2 : ({ Teach.submitRun (Teach.startSession s0 (.ok res0)) l with
        currentAnswer := a } : Teach.TeachState).session = some sess' := by
      simpa using h1
    rw [Teach.submitRequest.eq_def, if_neg hgneg, hsess2]
    simp only [Option.some.injEq, Teach.TeachRequest.mk.injEq]
    refine ⟨h2, h3, ?_⟩
    show Teach.answersSoFar (Teach.submitRun (Teach.startSession s0 (.ok res0)) l)
        ++ [jsTrim a] = l.map (fun p => jsTrim p.1) ++ [jsTrim a]
    rw [h5, hqa]
    simp

/-- C9, witness: the theorem applied at a concrete two-answer run. -/
theorem claim_C9_witness :
    Teach.submitRequest
        { Teach.submitRun (Teach.startSession Ex.ts0 (.ok Ex.tr0))
            [("first answer", Ex.tr1), ("second answer", Ex.tr2)] with
            currentAnswer := "third answer" } =
      some ⟨"hippocampus", "undergrad",
            ["first answer", "second answer", "third answer"]⟩ := by
  have h := claim_C9.2.2.2 Ex.ts0 Ex.tr0
    [("first answer", Ex.tr1), ("second answer", Ex.tr2)] "third answer"
    (by decide) (by decide) (by decide)
  exact h.trans (by decide)

/-- C10.  Navigating back to an answered flashcard rebuilds the displayed
evaluation from the stored numeric score alone — `is_correct` is shown
exactly when `score ≥ 1.0` and `is_partial` exactly when
`0 < score < 1.0` — and the stored per-card record depends only on the
evaluation's score and feedback, never on the `is_correct` / `is_partial`
flags the service returned. -/
theorem claim_C10 :
    (∀ (s : Flash.FlashState) (i : Nat) (r : Flash.CardResult),
        s.cardResults.get? i = some r →
        (Flash.goToCard s i).evaluation =
          some ⟨r.score, r.feedback, decide (r.score ≥ 1),
                decide (r.score > 0 ∧ r.score < 1)⟩) ∧
    (∀ (s : Flash.FlashState) (r₁ r₂ : Flash.FlashEval) (c : Flash.Card),
        ¬(jsTrim s.userAnswer = "" ∨ s.evaluating = true) →
        s.cards.get? s.currentIndex = some c →
        r₁.score = r₂.score → r₁.feedback = r₂.feedback →
        (Flash.submitAnswer s (.ok r₁)).cardResults =
          (Flash.submitAnswer s (.ok r₂)).cardResults) := by
  constructor
  · intro s i r h
    rw [Flash.goToCard.eq_def, h]
  · intro s r₁ r₂ c hg hc hs hf
    simp only [Flash.submitAnswer.eq_def, if_neg hg, hc]
    rw [hs, hf]

/-- C10, witness: the theorem applied at concrete states — in particular
both evaluations differ only in their flags and produce the same stored
record. -/
theorem claim_C10_witness :
    (Flash.goToCard Ex.fsActive 0).evaluation =
      some ⟨1, "good", decide ((1 : ℚ) ≥ 1), decide ((1 : ℚ) > 0 ∧ (1 : ℚ) < 1)⟩ ∧
    (Flash.submitAnswer Ex.fsTyped (.ok Ex.evalOne)).cardResults =
      (Flash.submitAnswer Ex.fsTyped (.ok Ex.evalOneFlipped)).cardResults :=
  ⟨claim_C10.1 Ex.fsActive 0 Ex.crA (by decide),
   claim_C10.2 Ex.fsTyped Ex.evalOne Ex.evalOneFlipped Ex.cardA
     (by decide) (by decide) (by decide) (by decide)⟩

end NeuraBuddy
